import Mathlib

/-!
Verification of the webpage-summarizer core (`summarizer.py`) against its
specification.  The Python code is shallowly embedded: the HTML document tree
handled by the parsing library is an inductive type, the network and the
model provider are oracles passed as functions, and every fallible operation
returns an `Option`.
-/

mutual
/-- A parsed HTML document tree: text nodes and elements with a tag name and
children.  `HtmlList` is the (mutually inductive) list of children. -/
inductive Html where
| text (s : String)
| elem (tag : String) (children : HtmlList)
deriving DecidableEq
inductive HtmlList where
| nil
| cons (hd : Html) (tl : HtmlList)
deriving DecidableEq
end

/-- Build an `HtmlList` from an ordinary list, for writing concrete documents. -/
def HtmlList.ofList : List Html → HtmlList
| [] => .nil
| h :: t => .cons h (HtmlList.ofList t)

mutual
/-- All text-node contents of a tree, in document order (the visible text the
parsing library's text extraction walks over). -/
def texts : Html → List String
| .text s => [s]
| .elem _ cs => textsL cs
def textsL : HtmlList → List String
| .nil => []
| .cons c rest => texts c ++ textsL rest
end

mutual
/-- Net effect of `soup.body.find_all(config.remove_elements)` followed by
`element.decompose()` on each hit: every element whose tag is in `ban`, at any
nesting depth, is removed together with its subtree (the root itself is kept,
as `find_all` only searches descendants). -/
def scrub (ban : List String) : Html → Html
| .text s => .text s
| .elem t cs => .elem t (scrubL ban cs)
def scrubL (ban : List String) : HtmlList → HtmlList
| .nil => .nil
| .cons (.text s) rest => .cons (.text s) (scrubL ban rest)
| .cons (.elem t cs) rest =>
  if t ∈ ban then scrubL ban rest
  else .cons (.elem t (scrubL ban cs)) (scrubL ban rest)
end

mutual
/-- Spec-side single pass: the text contents that survive when every element
whose tag is in `ban` is discarded at any nesting depth. -/
def keptTexts (ban : List String) : Html → List String
| .text s => [s]
| .elem _ cs => keptTextsL ban cs
def keptTextsL (ban : List String) : HtmlList → List String
| .nil => []
| .cons (.text s) rest => s :: keptTextsL ban rest
| .cons (.elem t cs) rest =>
  (if t ∈ ban then [] else keptTextsL ban cs) ++ keptTextsL ban rest
end

mutual
/-- First element with the given tag, in document (pre-)order; models
`soup.title` / `soup.body`. -/
def findElem (tag : String) : Html → Option Html
| .text _ => none
| .elem t cs => if t = tag then some (.elem t cs) else findElemL tag cs
def findElemL (tag : String) : HtmlList → Option Html
| .nil => none
| .cons c rest =>
  match findElem tag c with
  | some r => some r
  | none => findElemL tag rest
end

/-- The library's `.string` attribute: a text node yields its content; an
element with exactly one child yields that child's `.string`; anything else
yields `None`. -/
def htmlString : Html → Option String
| .text s => some s
| .elem _ (.cons c .nil) => htmlString c
| .elem _ _ => none

/-- `ScrapingConfig` dataclass: identifying header, timeout, retry bound, base
retry delay (a binary float in Python, modelled exactly as a rational since
all computed delays `retry_delay * 2^i` are exact in binary floating point),
and the tag names discarded during text extraction. -/
structure ScrapingConfig where
  user_agent : String
  timeout : Int
  max_retries : Int
  retry_delay : ℚ
  remove_elements : List String
deriving DecidableEq

/-- Default of the `remove_elements` field, installed by `__post_init__` when
the field is left at `None`. -/
def defaultRemoveElements : List String :=
  ["script", "style", "img", "input", "nav", "header", "footer", "aside"]

/-- Default `user_agent` field value. -/
def defaultUserAgent : String :=
  "Mozilla/5.0 (Windows NT 10.0; Win64; x64) AppleWebKit/537.36 (KHTML, like Gecko) Chrome/117.0.0.0 Safari/537.36"

/-- `ScrapingConfig()` with no explicit arguments: dataclass field defaults,
then `__post_init__` fills `remove_elements`. -/
def ScrapingConfig.default : ScrapingConfig :=
  { user_agent := defaultUserAgent
    timeout := 30
    max_retries := 3
    retry_delay := 1
    remove_elements := defaultRemoveElements }

/-- Whitespace in the sense of Python's `str.strip()` (the ASCII part, which
is all this pipeline ever handles as separators). -/
def isSpaceChar (c : Char) : Bool :=
  c == ' ' || c == '\t' || c == '\n' || c == '\r' || c == '\x0b' || c == '\x0c'

/-- `str.strip()` on a character list: drop leading and trailing whitespace. -/
def stripChars (l : List Char) : List Char :=
  ((l.dropWhile isSpaceChar).reverse.dropWhile isSpaceChar).reverse

/-- Python's `str.strip()`. -/
def pyStrip (s : String) : String :=
  ⟨stripChars s.data⟩

/-- Split a character list at every newline, keeping empty pieces. -/
def splitNlChars : List Char → List (List Char)
| [] => [[]]
| c :: rest =>
  if c = '\n' then [] :: splitNlChars rest
  else
    match splitNlChars rest with
    | [] => [[c]]
    | h :: t => (c :: h) :: t

/-- Python's `text.split('\n')`: split at every newline, keeping empty
pieces. -/
def pySplitNl (s : String) : List String :=
  (splitNlChars s.data).map (fun l => ⟨l⟩)

/-- `sep.join(pieces)` on character lists. -/
def joinChars (sep : List Char) : List (List Char) → List Char
| [] => []
| [x] => x
| x :: rest => x ++ sep ++ joinChars sep rest

/-- Python's `sep.join(pieces)`. -/
def joinWith (sep : String) (l : List String) : String :=
  ⟨joinChars sep.data (l.map String.data)⟩

/-- Full visible text of one element with no separator (used only to state
what "the element's text" means for a title element). -/
def elemText (h : Html) : String :=
  joinWith "" (texts h)

/-- Line cleanup of `from_response`:
`'\n'.join(line.strip() for line in text.split('\n') if line.strip())`. -/
def cleanLines (s : String) : String :=
  joinWith "\n" (((pySplitNl s).map pyStrip).filter (fun l => l ≠ ""))

/-- The library's `get_text(separator, strip=True)`: each text run is
stripped, empty runs are dropped, and the survivors are joined with the
separator. -/
def getTextStrip (sep : String) (h : Html) : String :=
  joinWith sep (((texts h).map pyStrip).filter (fun l => l ≠ ""))

/-- Title extraction of `Website.from_response`:
`title = soup.title.string if soup.title else "No title found"` followed by
`title = title.strip() if title else "No title found"` (a `None` string or an
empty string is falsy and yields the sentinel). -/
def extractTitle (doc : Html) : String :=
  let title : Option String :=
    match findElem "title" doc with
    | some t => htmlString t
    | none => some "No title found"
  match title with
  | some s => if s = "" then "No title found" else pyStrip s
  | none => "No title found"

/-- Body-text extraction of `Website.from_response`: if a body element exists,
decompose the configured elements, take `get_text(separator="\n", strip=True)`
and clean the lines; otherwise the sentinel. -/
def extractText (cfg : ScrapingConfig) (doc : Html) : String :=
  match findElem "body" doc with
  | none => "No content found"
  | some b => cleanLines (getTextStrip "\n" (scrub cfg.remove_elements b))

/-- Spec-side body text, following the specification's words: remove every
element whose tag name is in the discard set at any nesting depth
(`keptTexts`), extract the remaining visible text with newline separators,
trim each line, drop empty lines, and join the survivors with single
newlines. -/
def specBodyText (ban : List String) (b : Html) : String :=
  cleanLines (joinWith "\n" (keptTexts ban b))

/-- A scraped page: URL, extracted title, cleaned text, and response metadata
(status code, content-type header value, byte length).  The wall-clock
`scraped_at` stamp is omitted: no specified property mentions it. -/
structure Website where
  url : String
  title : String
  text : String
  status_code : Int
  content_type : String
  content_length : Nat
deriving DecidableEq

/-- What the fetch of one attempt comes back with, as seen by the `try` block
of `WebsiteScraper.scrape`: a parsed page (GET succeeded, `raise_for_status`
passed, `Website.from_response` ran), a `requests.exceptions.RequestException`
(bad status, timeout, connection error), or any other exception. -/
inductive FetchOutcome where
| success (w : Website)
| transient
| fatal
deriving DecidableEq

/-- Observable trace of one `scrape` call: its return value, the backoff
sleeps in order, and how many HTTP requests were issued. -/
structure ScrapeTrace where
  result : Option Website
  sleeps : List ℚ
  requests : Nat
deriving DecidableEq

/-- The `for attempt in range(max_retries)` loop of `WebsiteScraper.scrape`
over the remaining attempt indices.  `att` is the network oracle giving each
attempt's outcome.  On a transient error at an index `i < max_retries - 1`
the loop sleeps `retry_delay * 2^i` and continues; on the last attempt it
returns `None`; any other exception returns `None` at once.  An empty index
list (the loop body never ran) falls off the end of the function, which in
Python returns `None`. -/
def scrapeLoop (cfg : ScrapingConfig) (att : Nat → FetchOutcome) : List Nat → ScrapeTrace
| [] => ⟨none, [], 0⟩
| i :: rest =>
  match att i with
  | .success w => ⟨some w, [], 1⟩
  | .fatal => ⟨none, [], 1⟩
  | .transient =>
    if (i : Int) < cfg.max_retries - 1 then
      let t := scrapeLoop cfg att rest
      ⟨t.result, cfg.retry_delay * 2 ^ i :: t.sleeps, t.requests + 1⟩
    else ⟨none, [], 1⟩

/-- `WebsiteScraper.scrape`: run the attempt loop over
`range(self.config.max_retries)` (empty when `max_retries ≤ 0`). -/
def WebsiteScraper.scrape (cfg : ScrapingConfig) (att : Nat → FetchOutcome) : ScrapeTrace :=
  scrapeLoop cfg att (List.range cfg.max_retries.toNat)

/-- One chat message (role, content) as placed in the provider request. -/
structure Message where
  role : String
  content : String
deriving DecidableEq

/-- Outcome of the single `chat.completions.create` call: a response whose
choices each carry an optional textual content
(`response.choices[i].message.content`), a provider-reported `APIError`, or
any other exception raised during the call. -/
inductive ProviderResult where
| ok (choices : List (Option String))
| apiError (msg : String)
| exn (msg : String)
deriving DecidableEq

/-- Default system prompt of `OpenAISummarizer.summarize`. -/
def defaultSystemPrompt : String :=
  "You are an assistant that analyzes the contents of a website \nand provides a short summary, ignoring text that might be navigation related. \nRespond in markdown."

/-- `Website.get_summary_prompt`: the fixed user-message template with the
title and cleaned text interpolated verbatim. -/
def Website.get_summary_prompt (w : Website) : String :=
  "You are looking at a website titled \"" ++ w.title ++ "\"\n\nThe contents of this website is as follows; please provide a short summary of this website in markdown. \nIf it includes news or announcements, then summarize these too.\n\n" ++ w.text

/-- The message list `OpenAISummarizer.summarize` builds: system prompt (the
default when the caller passed `None`), then the user prompt. -/
def mkMessages (system_prompt : Option String) (w : Website) : List Message :=
  [⟨"system", system_prompt.getD defaultSystemPrompt⟩,
   ⟨"user", w.get_summary_prompt⟩]

/-- Observable trace of one `OpenAISummarizer.summarize` call: its return
value and the number of provider requests issued. -/
structure ClientCall where
  result : Option String
  requests : Nat
deriving DecidableEq

/-- `OpenAISummarizer.summarize`: build the two messages, issue the single
provider request, and return the first choice's content; an empty choices
list (the `choices[0]` subscript raises) or any error returns `None`. -/
def OpenAISummarizer.summarize (provider : List Message → ProviderResult)
    (w : Website) (system_prompt : Option String) : ClientCall :=
  match provider (mkMessages system_prompt w) with
  | .ok [] => ⟨none, 1⟩
  | .ok (c :: _) => ⟨c, 1⟩
  | .apiError _ => ⟨none, 1⟩
  | .exn _ => ⟨none, 1⟩

/-- The fields of `urllib.parse.urlparse(url)` that `summarize_url` reads. -/
structure UrlParts where
  scheme : String
  netloc : String
deriving DecidableEq

/-- Observable trace of one `WebSummarizer.summarize_url` call: its return
value, how many times `scraper.scrape` ran, and how many provider requests
were issued. -/
structure RunTrace where
  result : Option String
  fetchCalls : Nat
  providerRequests : Nat
deriving DecidableEq

/-- `WebSummarizer.summarize_url`: reject a parse with an empty scheme or an
empty netloc before any network call; otherwise scrape once (`scraped` is
the scraper's return value), give up on `None`, and otherwise return the
summarizer client's output unchanged. -/
def WebSummarizer.summarize_url (parsed : UrlParts) (scraped : Option Website)
    (provider : List Message → ProviderResult) (system_prompt : Option String) : RunTrace :=
  if parsed.scheme = "" ∨ parsed.netloc = "" then ⟨none, 0, 0⟩
  else
    match scraped with
    | none => ⟨none, 1, 0⟩
    | some w =>
      let call := OpenAISummarizer.summarize provider w system_prompt
      ⟨call.result, 1, call.requests⟩

/-- The parse tree of the specification's test input
`<html><head><title>Test Site</title></head><body><p>Test content</p></body></html>`. -/
def exDoc : Html :=
  .elem "html" (HtmlList.ofList
    [.elem "head" (HtmlList.ofList [.elem "title" (HtmlList.ofList [.text "Test Site"])]),
     .elem "body" (HtmlList.ofList [.elem "p" (HtmlList.ofList [.text "Test content"])])])

/-- The body element of `exDoc`. -/
def exBody : Html :=
  .elem "body" (HtmlList.ofList [.elem "p" (HtmlList.ofList [.text "Test content"])])

/-- A document whose title element is present but empty
(`<html><head><title></title></head><body>x</body></html>`). -/
def emptyTitleDoc : Html :=
  .elem "html" (HtmlList.ofList
    [.elem "head" (HtmlList.ofList [.elem "title" HtmlList.nil]),
     .elem "body" (HtmlList.ofList [.text "x"])])

/-- A document with no title element. -/
def noTitleDoc : Html :=
  .elem "html" (HtmlList.ofList
    [.elem "head" HtmlList.nil,
     .elem "body" (HtmlList.ofList [.text "x"])])

/-- A document with no body element. -/
def noBodyDoc : Html :=
  .elem "html" (HtmlList.ofList
    [.elem "head" (HtmlList.ofList [.elem "title" (HtmlList.ofList [.text "T"])])])

/-- A concrete scraped page used to instantiate theorems. -/
def examplePage : Website :=
  { url := "https://example.com"
    title := "Test Site"
    text := "Test content"
    status_code := 200
    content_type := "text/html"
    content_length := 71 }

/-- The discard set exactly as the specification's data-model section spells
it. -/
def specListedRemoveElements : List String :=
  ["script", "style", "image", "input", "nav", "header", "footer", "aside"]

/-- `ScrapingConfig()` with `max_retries` forced to zero. -/
def zeroRetryConfig : ScrapingConfig :=
  { ScrapingConfig.default with max_retries := 0 }

/-- Network oracle: every attempt raises a request-level error. -/
def alwaysTransient : Nat → FetchOutcome := fun _ => FetchOutcome.transient

/-- Network oracle: every attempt raises a non-request-level error. -/
def alwaysFatal : Nat → FetchOutcome := fun _ => FetchOutcome.fatal

/-- Network oracle: every attempt succeeds with the given page. -/
def alwaysSuccess (w : Website) : Nat → FetchOutcome := fun _ => FetchOutcome.success w

/-- Provider oracle: one choice whose content is the given text. -/
def okProvider (s : String) : List Message → ProviderResult :=
  fun _ => ProviderResult.ok [some s]

/-- Provider oracle: the call raises an `APIError`. -/
def apiErrorProvider (e : String) : List Message → ProviderResult :=
  fun _ => ProviderResult.apiError e

/-- `urlparse("https://example.com")`, restricted to the fields read. -/
def exampleParts : UrlParts := ⟨"https", "example.com"⟩

/-- `urlparse("example.com")`: no scheme, no netloc. -/
def noSchemeParts : UrlParts := ⟨"", ""⟩

/-- The trimmed, non-empty lines of a character list: split at newlines,
strip each piece, drop the empty ones. -/
def tokC (l : List Char) : List (List Char) :=
  ((splitNlChars l).map stripChars).filter (fun p => p ≠ [])

/-- Append a character to the last piece of a piece list. -/
def snocLast (c : Char) : List (List Char) → List (List Char)
| [] => []
| [x] => [x ++ [c]]
| x :: rest => x :: snocLast c rest

mutual
/-- Decomposing the banned elements and then collecting the text runs is the
same as collecting the surviving text runs in one pass. -/
theorem texts_scrub (ban : List String) : (h : Html) → texts (scrub ban h) = keptTexts ban h
| .text _ => rfl
| .elem _ cs => texts_scrubL ban cs
theorem texts_scrubL (ban : List String) : (cs : HtmlList) → textsL (scrubL ban cs) = keptTextsL ban cs
| .nil => rfl
| .cons (.text s) rest => by
  simp [scrubL, textsL, texts, keptTextsL, texts_scrubL ban rest]
| .cons (.elem t cs) rest => by
  by_cases hb : t ∈ ban
  · simp [scrubL, hb, keptTextsL, texts_scrubL ban rest]
  · simp [scrubL, hb, keptTextsL, textsL, texts, texts_scrubL ban cs, texts_scrubL ban rest]
end

/-- Splitting at newlines never produces an empty piece list. -/
theorem splitNlChars_ne_nil (l : List Char) : splitNlChars l ≠ [] := by
  induction l with
  | nil => simp [splitNlChars]
  | cons c rest ih =>
    by_cases h : c = '\n'
    · simp [splitNlChars, h]
    · simp only [splitNlChars, h, if_false]
      cases hs : splitNlChars rest <;> simp

/-- Splitting a concatenation around an explicit newline splits each side
separately. -/
theorem splitNlChars_append_nl (a b : List Char) :
    splitNlChars (a ++ '\n' :: b) = splitNlChars a ++ splitNlChars b := by
  induction a with
  | nil => simp [splitNlChars]
  | cons c a' ih =>
    by_cases h : c = '\n'
    · simp [splitNlChars, h, ih]
    · cases hs : splitNlChars a' with
      | nil => exact absurd hs (splitNlChars_ne_nil a')
      | cons h1 t1 => simp [splitNlChars, h, ih, hs]

/-- Appending a non-newline character extends the last piece of the split. -/
theorem splitNlChars_append_char (c : Char) (hc : c ≠ '\n') (l : List Char) :
    splitNlChars (l ++ [c]) = snocLast c (splitNlChars l) := by
  induction l with
  | nil => simp [splitNlChars, hc, snocLast]
  | cons d l' ih =>
    by_cases h : d = '\n'
    · cases hs : splitNlChars l' with
      | nil => exact absurd hs (splitNlChars_ne_nil l')
      | cons h1 t1 => simp [splitNlChars, h, ih, hs, snocLast]
    · cases hs : splitNlChars l' with
      | nil => exact absurd hs (splitNlChars_ne_nil l')
      | cons h1 t1 =>
        cases t1 with
        | nil => simp [splitNlChars, h, ih, hs, snocLast]
        | cons u v => simp [splitNlChars, h, ih, hs, snocLast]

/-- Stripping ignores a leading whitespace character. -/
theorem stripChars_cons_ws (c : Char) (hc : isSpaceChar c) (l : List Char) :
    stripChars (c :: l) = stripChars l := by
  simp [stripChars, List.dropWhile_cons, hc]

/-- Stripping ignores a trailing whitespace character. -/
theorem stripChars_append_ws (c : Char) (hc : isSpaceChar c) (l : List Char) :
    stripChars (l ++ [c]) = stripChars l := by
  unfold stripChars
  rw [List.dropWhile_append]
  by_cases h : (l.dropWhile isSpaceChar).isEmpty
  · rw [List.isEmpty_iff] at h
    simp [h, List.dropWhile_cons, hc]
  · simp [h, List.dropWhile_cons, hc]

/-- `tokC` of the empty character list is empty. -/
theorem tokC_nil : tokC [] = [] := by
  simp [tokC, splitNlChars, stripChars]

/-- Line tokens of a concatenation around an explicit newline. -/
theorem tokC_append_nl (a b : List Char) : tokC (a ++ '\n' :: b) = tokC a ++ tokC b := by
  simp [tokC, splitNlChars_append_nl, List.filter_append]

/-- Line tokens ignore a leading whitespace character. -/
theorem tokC_cons_ws (c : Char) (hc : isSpaceChar c) (l : List Char) :
    tokC (c :: l) = tokC l := by
  by_cases h : c = '\n'
  · simp [tokC, splitNlChars, h, stripChars]
  · cases hs : splitNlChars l with
    | nil => exact absurd hs (splitNlChars_ne_nil l)
    | cons h1 t1 => simp [tokC, splitNlChars, h, hs, stripChars_cons_ws c hc]

/-- Stripping each piece is unaffected by extending the last piece with a
whitespace character. -/
theorem map_stripChars_snocLast (c : Char) (hc : isSpaceChar c) (P : List (List Char)) :
    (snocLast c P).map stripChars = P.map stripChars := by
  induction P with
  | nil => rfl
  | cons x rest ih =>
    cases rest with
    | nil => simp [snocLast, stripChars_append_ws c hc]
    | cons y v => simp_all [snocLast]

/-- Line tokens ignore a trailing whitespace character. -/
theorem tokC_snoc_ws (c : Char) (hc : isSpaceChar c) (l : List Char) :
    tokC (l ++ [c]) = tokC l := by
  by_cases h : c = '\n'
  · subst h
    rw [show l ++ ['\n'] = l ++ '\n' :: [] from rfl, tokC_append_nl, tokC_nil, List.append_nil]
  · rw [tokC, splitNlChars_append_char c h l, map_stripChars_snocLast c hc]
    rfl

/-- Line tokens ignore leading whitespace. -/
theorem tokC_dropWhile (l : List Char) : tokC (l.dropWhile isSpaceChar) = tokC l := by
  induction l with
  | nil => rfl
  | cons c l' ih =>
    by_cases h : isSpaceChar c
    · rw [List.dropWhile_cons, if_pos h, ih, tokC_cons_ws c h]
    · rw [List.dropWhile_cons, if_neg h]

/-- Line tokens ignore trailing whitespace (phrased through a reversal). -/
theorem tokC_reverse_dropWhile (r : List Char) :
    tokC ((r.dropWhile isSpaceChar).reverse) = tokC r.reverse := by
  induction r with
  | nil => rfl
  | cons c r' ih =>
    by_cases h : isSpaceChar c
    · rw [List.dropWhile_cons, if_pos h, ih, List.reverse_cons, tokC_snoc_ws c h]
    · rw [List.dropWhile_cons, if_neg h]

/-- Line tokens are invariant under stripping. -/
theorem tokC_stripChars (l : List Char) : tokC (stripChars l) = tokC l := by
  unfold stripChars
  rw [tokC_reverse_dropWhile, List.reverse_reverse, tokC_dropWhile]

/-- Line tokens of a newline-join: tokens of each piece, concatenated. -/
theorem tokC_joinChars (P : List (List Char)) :
    tokC (joinChars ['\n'] P) = P.flatMap tokC := by
  induction P with
  | nil => simp [joinChars, tokC_nil]
  | cons x rest ih =>
    cases rest with
    | nil => simp [joinChars]
    | cons y v =>
      have hx : joinChars ['\n'] (x :: y :: v) = x ++ '\n' :: joinChars ['\n'] (y :: v) := by
        simp [joinChars]
      rw [hx, tokC_append_nl, ih]
      simp

/-- Pre-stripping the pieces and dropping the empty ones does not change the
line tokens of the newline-join. -/
theorem tokC_joinChars_strip_filter (P : List (List Char)) :
    tokC (joinChars ['\n'] ((P.map stripChars).filter (fun p => p ≠ []))) =
      tokC (joinChars ['\n'] P) := by
  rw [tokC_joinChars, tokC_joinChars]
  induction P with
  | nil => rfl
  | cons x rest ih =>
    simp only [ne_eq, decide_not] at ih
    simp only [List.map_cons, List.filter_cons]
    by_cases h : stripChars x = []
    · have hx : tokC x = [] := by rw [← tokC_stripChars x, h, tokC_nil]
      simp [h, hx, ih]
    · simp [h, tokC_stripChars, ih]

/-- A built string is empty iff its character list is. -/
theorem mk_eq_empty_iff (l : List Char) : (⟨l⟩ : String) = "" ↔ l = [] := by
  constructor
  · intro h
    have := congrArg String.data h
    simpa using this
  · intro h
    subst h
    rfl

/-- `cleanLines` computed at the character level. -/
theorem cleanLines_eq_tokC (s : String) :
    cleanLines s = ⟨joinChars ['\n'] (tokC s.data)⟩ := by
  unfold cleanLines joinWith pySplitNl tokC
  congr 1
  show joinChars "\n".data _ = _
  rw [show "\n".data = ['\n'] from rfl]
  congr 1
  rw [List.map_map]
  have h1 : (pyStrip ∘ fun l => (⟨l⟩ : String)) = fun l => (⟨stripChars l⟩ : String) := rfl
  rw [h1, List.filter_map]
  rw [List.map_map]
  rw [List.filter_map]
  have h3 : ((fun l => decide (l ≠ "")) ∘ fun l => (⟨stripChars l⟩ : String))
      = ((fun p => decide (p ≠ [])) ∘ stripChars) := by
    funext l
    simp [Function.comp, mk_eq_empty_iff]
  have h4 : (String.data ∘ fun l => (⟨stripChars l⟩ : String)) = stripChars := rfl
  rw [h3, h4]

/-- Character-level view of stripping each string, dropping the empty ones. -/
theorem strip_filter_data (L : List String) :
    ((L.map pyStrip).filter (fun l => l ≠ "")).map String.data
      = ((L.map String.data).map stripChars).filter (fun p => p ≠ []) := by
  rw [List.filter_map, List.map_map, List.map_map, List.filter_map]
  have h1 : (String.data ∘ pyStrip) = (stripChars ∘ String.data) := rfl
  have h2 : ((fun l => decide (l ≠ "")) ∘ pyStrip)
      = ((fun p => decide (p ≠ [])) ∘ stripChars ∘ String.data) := by
    funext l
    show decide (pyStrip l ≠ "") = decide (stripChars l.data ≠ [])
    simp [pyStrip, mk_eq_empty_iff]
  rw [h1, h2]

/-- The code pipeline (strip each text run, drop empties, join, clean lines)
agrees with the plain spec pipeline (join raw runs, clean lines). -/
theorem cleanLines_joinWith_strip (L : List String) :
    cleanLines (joinWith "\n" ((L.map pyStrip).filter (fun l => l ≠ ""))) =
      cleanLines (joinWith "\n" L) := by
  rw [cleanLines_eq_tokC, cleanLines_eq_tokC]
  congr 2
  rw [show (joinWith "\n" ((L.map pyStrip).filter (fun l => l ≠ ""))).data
      = joinChars ['\n'] (((L.map pyStrip).filter (fun l => l ≠ "")).map String.data) from rfl]
  rw [show (joinWith "\n" L).data = joinChars ['\n'] (L.map String.data) from rfl]
  rw [strip_filter_data]
  exact tokC_joinChars_strip_filter (L.map String.data)

/-- C6 core: when a body element exists, the extracted body text equals the
spec-side pipeline applied to that body element. -/
theorem extractText_eq_specBodyText (cfg : ScrapingConfig) (doc b : Html)
    (hb : findElem "body" doc = some b) :
    extractText cfg doc = specBodyText cfg.remove_elements b := by
  unfold extractText specBodyText
  rw [hb]
  show cleanLines (getTextStrip "\n" (scrub cfg.remove_elements b)) = _
  rw [show getTextStrip "\n" (scrub cfg.remove_elements b)
      = joinWith "\n" ((((texts (scrub cfg.remove_elements b)).map pyStrip)).filter
          (fun l => l ≠ "")) from rfl]
  rw [texts_scrub, cleanLines_joinWith_strip]

/-- When every attempt fails with a request-level error, the loop returns
`None` whatever the index list is. -/
theorem scrapeLoop_result_transient (cfg : ScrapingConfig) (att : Nat → FetchOutcome)
    (h : ∀ i, att i = .transient) (l : List Nat) : (scrapeLoop cfg att l).result = none := by
  induction l with
  | nil => rfl
  | cons i rest ih =>
    rw [scrapeLoop, h i]
    by_cases hcond : (i : Int) < cfg.max_retries - 1
    · simp [hcond, ih]
    · simp [hcond]

/-- The sleeps recorded over any suffix of attempt indices are exactly
`retry_delay * 2^i` for the consecutive indices they were slept at. -/
theorem scrapeLoop_sleeps_range (cfg : ScrapingConfig) (att : Nat → FetchOutcome)
    (c : Nat) : ∀ k, (scrapeLoop cfg att (List.range' k c)).sleeps =
      (List.range' k (scrapeLoop cfg att (List.range' k c)).sleeps.length).map
        (fun i => cfg.retry_delay * 2 ^ i) := by
  induction c with
  | zero => intro k; simp [List.range', scrapeLoop]
  | succ c ih =>
    intro k
    rw [List.range'_succ, scrapeLoop]
    cases hA : att k with
    | success w => simp
    | fatal => simp
    | transient =>
      by_cases hcond : (k : Int) < cfg.max_retries - 1
      · simp only [hcond, if_true]
        rw [List.length_cons, List.range'_succ, List.map_cons, ih (k + 1)]
        simp [List.length_map, List.length_range']
      · simp [hcond, List.range']

/-- Full trace of a run in which every attempt fails with a request-level
error: no result, a backoff sleep after every attempt but the last, one HTTP
request per attempt. -/
theorem scrapeLoop_transient_trace (cfg : ScrapingConfig) (att : Nat → FetchOutcome)
    (h : ∀ i, att i = .transient) (c : Nat) : ∀ k : Nat, (k : Int) + c = cfg.max_retries →
    scrapeLoop cfg att (List.range' k c) =
      ⟨none, (List.range' k (c - 1)).map (fun i => cfg.retry_delay * 2 ^ i), c⟩ := by
  induction c with
  | zero => intro k _; simp [List.range', scrapeLoop]
  | succ c ih =>
    intro k hkc
    rw [List.range'_succ, scrapeLoop, h k]
    by_cases hcond : (k : Int) < cfg.max_retries - 1
    · have hc : c ≠ 0 := by omega
      rw [if_pos hcond, ih (k + 1) (by push_cast at hkc ⊢; omega)]
      have hr : List.range' k c = k :: List.range' (k + 1) (c - 1) := by
        cases c with
        | zero => omega
        | succ c' => simp [List.range'_succ]
      simp [hr]
    · have hc0 : c = 0 := by omega
      subst hc0
      rw [if_neg hcond]
      simp [List.range']

/-- Full trace of a run whose attempt `j` raises a non-request-level error
after `j` transient failures: the loop stops right there. -/
theorem scrapeLoop_fatal_trace (cfg : ScrapingConfig) (att : Nat → FetchOutcome)
    (j : Nat) (hj : att j = .fatal) (hb : ∀ i, i < j → att i = .transient)
    (c : Nat) : ∀ k, k + c = cfg.max_retries.toNat → k ≤ j → j < k + c →
    scrapeLoop cfg att (List.range' k c) =
      ⟨none, (List.range' k (j - k)).map (fun i => cfg.retry_delay * 2 ^ i), j - k + 1⟩ := by
  induction c with
  | zero => intro k _ _ _; omega
  | succ c ih =>
    intro k hkc hkj hjc
    rw [List.range'_succ, scrapeLoop]
    by_cases hkj' : k = j
    · subst hkj'
      rw [hj]
      simp [Nat.sub_self, List.range']
    · have hklt : k < j := by omega
      rw [hb k hklt]
      have hcond : (k : Int) < cfg.max_retries - 1 := by omega
      rw [if_pos hcond, ih (k + 1) (by omega) (by omega) (by omega)]
      have hr : List.range' k (j - k) = k :: List.range' (k + 1) (j - (k + 1)) := by
        have hjk : j - k = (j - (k + 1)) + 1 := by omega
        rw [hjk, List.range'_succ]
      simp [hr]
      omega

/-- With a non-positive retry bound the attempt loop never runs. -/
theorem scrape_nonpos (cfg : ScrapingConfig) (att : Nat → FetchOutcome)
    (h : cfg.max_retries ≤ 0) : WebsiteScraper.scrape cfg att = ⟨none, [], 0⟩ := by
  unfold WebsiteScraper.scrape
  rw [Int.toNat_of_nonpos h]
  rfl

/-- Claim C1: for every URL whose fetch succeeds and whose provider call
succeeds, the Orchestrator returns exactly the textual content of the
provider response's first choice, unchanged. -/
theorem C1_orchestrator_returns_summary_unchanged
    (cfg : ScrapingConfig) (att : Nat → FetchOutcome) (parsed : UrlParts)
    (provider : List Message → ProviderResult) (sp : Option String)
    (w : Website) (s : String) (rest : List (Option String))
    (hs : parsed.scheme ≠ "") (hn : parsed.netloc ≠ "")
    (hw : (WebsiteScraper.scrape cfg att).result = some w)
    (hp : provider (mkMessages sp w) = .ok (some s :: rest)) :
    (WebSummarizer.summarize_url parsed (WebsiteScraper.scrape cfg att).result
        provider sp).result = some s := by
  rw [hw]
  simp [WebSummarizer.summarize_url, hs, hn, OpenAISummarizer.summarize, hp]

/-- Claim C1 witness at a concrete run. -/
theorem C1_witness :
    (WebSummarizer.summarize_url exampleParts
        (WebsiteScraper.scrape ScrapingConfig.default (alwaysSuccess examplePage)).result
        (okProvider "A short summary.") none).result = some "A short summary." :=
  C1_orchestrator_returns_summary_unchanged ScrapingConfig.default
    (alwaysSuccess examplePage) exampleParts (okProvider "A short summary.") none
    examplePage "A short summary." [] (by decide) (by decide) rfl rfl

/-- Claim C2: for every URL whose parse has an empty scheme or an empty
netloc, the Orchestrator returns `None` without invoking the Fetcher. -/
theorem C2_invalid_url_no_fetch (parsed : UrlParts) (scraped : Option Website)
    (provider : List Message → ProviderResult) (sp : Option String)
    (h : parsed.scheme = "" ∨ parsed.netloc = "") :
    WebSummarizer.summarize_url parsed scraped provider sp = ⟨none, 0, 0⟩ := by
  unfold WebSummarizer.summarize_url
  rw [if_pos h]

/-- Claim C2 witness at a concrete schemeless parse. -/
theorem C2_witness :
    WebSummarizer.summarize_url noSchemeParts (some examplePage)
      (okProvider "S") none = ⟨none, 0, 0⟩ :=
  C2_invalid_url_no_fetch noSchemeParts (some examplePage) (okProvider "S") none
    (Or.inl rfl)

/-- Claim C3: every backoff wait slept after the failed attempt with 0-based
index `i` equals `retry_delay * 2^i`, and in a run where every attempt fails
there is no wait after the last attempt (one fewer sleep than attempts). -/
theorem C3_backoff_schedule (cfg : ScrapingConfig) (att : Nat → FetchOutcome) :
    (WebsiteScraper.scrape cfg att).sleeps =
      (List.range (WebsiteScraper.scrape cfg att).sleeps.length).map
        (fun i => cfg.retry_delay * 2 ^ i) ∧
    ((∀ i, att i = .transient) →
      (WebsiteScraper.scrape cfg att).sleeps.length = cfg.max_retries.toNat - 1) := by
  constructor
  · unfold WebsiteScraper.scrape
    simp only [List.range_eq_range']
    exact scrapeLoop_sleeps_range cfg att cfg.max_retries.toNat 0
  · intro h
    by_cases hm : cfg.max_retries ≤ 0
    · rw [scrape_nonpos cfg att hm]
      simp [Int.toNat_of_nonpos hm]
    · unfold WebsiteScraper.scrape
      rw [List.range_eq_range',
        scrapeLoop_transient_trace cfg att h cfg.max_retries.toNat 0 (by omega)]
      simp [List.length_range']

/-- Claim C3 witness: default config, every attempt failing. -/
theorem C3_witness :
    (WebsiteScraper.scrape ScrapingConfig.default alwaysTransient).sleeps =
      (List.range (WebsiteScraper.scrape ScrapingConfig.default alwaysTransient).sleeps.length).map
        (fun i => ScrapingConfig.default.retry_delay * 2 ^ i) ∧
    (WebsiteScraper.scrape ScrapingConfig.default alwaysTransient).sleeps.length =
      ScrapingConfig.default.max_retries.toNat - 1 :=
  ⟨(C3_backoff_schedule ScrapingConfig.default alwaysTransient).1,
   (C3_backoff_schedule ScrapingConfig.default alwaysTransient).2 (fun _ => rfl)⟩

/-- Claim C4: when every fetch attempt fails with a request-level error, the
Fetcher returns `None` (it does not raise), and the Orchestrator then returns
`None` without ever issuing a provider request. -/
theorem C4_exhaustion_no_summarize (cfg : ScrapingConfig) (att : Nat → FetchOutcome)
    (h : ∀ i, att i = .transient) (parsed : UrlParts)
    (provider : List Message → ProviderResult) (sp : Option String)
    (hs : parsed.scheme ≠ "") (hn : parsed.netloc ≠ "") :
    (WebsiteScraper.scrape cfg att).result = none ∧
    (WebSummarizer.summarize_url parsed (WebsiteScraper.scrape cfg att).result
        provider sp).result = none ∧
    (WebSummarizer.summarize_url parsed (WebsiteScraper.scrape cfg att).result
        provider sp).providerRequests = 0 := by
  have hres : (WebsiteScraper.scrape cfg att).result = none :=
    scrapeLoop_result_transient cfg att h _
  refine ⟨hres, ?_, ?_⟩ <;> rw [hres] <;> simp [WebSummarizer.summarize_url, hs, hn]

/-- Claim C4 witness at a concrete failing run. -/
theorem C4_witness :
    (WebsiteScraper.scrape ScrapingConfig.default alwaysTransient).result = none ∧
    (WebSummarizer.summarize_url exampleParts
        (WebsiteScraper.scrape ScrapingConfig.default alwaysTransient).result
        (okProvider "S") none).result = none ∧
    (WebSummarizer.summarize_url exampleParts
        (WebsiteScraper.scrape ScrapingConfig.default alwaysTransient).result
        (okProvider "S") none).providerRequests = 0 :=
  C4_exhaustion_no_summarize ScrapingConfig.default alwaysTransient (fun _ => rfl)
    exampleParts (okProvider "S") none (by decide) (by decide)

/-- Claim C8: the Summarizer Client issues exactly one provider request per
call, and on a provider-reported API error or any other exception it returns
`None` instead of propagating the fault. -/
theorem C8_client_single_request_no_propagation
    (provider : List Message → ProviderResult) (w : Website) (sp : Option String) :
    (OpenAISummarizer.summarize provider w sp).requests = 1 ∧
    (∀ e, provider (mkMessages sp w) = .apiError e →
      (OpenAISummarizer.summarize provider w sp).result = none) ∧
    (∀ e, provider (mkMessages sp w) = .exn e →
      (OpenAISummarizer.summarize provider w sp).result = none) := by
  refine ⟨?_, ?_, ?_⟩
  · cases hp : provider (mkMessages sp w) with
    | ok choices => cases choices <;> simp [OpenAISummarizer.summarize, hp]
    | apiError m => simp [OpenAISummarizer.summarize, hp]
    | exn m => simp [OpenAISummarizer.summarize, hp]
  · intro e he
    simp [OpenAISummarizer.summarize, he]
  · intro e he
    simp [OpenAISummarizer.summarize, he]

/-- Claim C8 witness at a concrete failing provider. -/
theorem C8_witness :
    (OpenAISummarizer.summarize (apiErrorProvider "boom") examplePage none).requests = 1 ∧
    (OpenAISummarizer.summarize (apiErrorProvider "boom") examplePage none).result = none :=
  ⟨(C8_client_single_request_no_propagation (apiErrorProvider "boom") examplePage none).1,
   (C8_client_single_request_no_propagation (apiErrorProvider "boom") examplePage none).2.1
     "boom" rfl⟩

/-- Claim C9: a non-request-level exception at attempt `j` ends the whole
attempt sequence at once — `None` result, no further request, no backoff
sleep after it. -/
theorem C9_fatal_terminates_immediately (cfg : ScrapingConfig)
    (att : Nat → FetchOutcome) (j : Nat) (hj : att j = .fatal)
    (hb : ∀ i, i < j → att i = .transient) (hlt : j < cfg.max_retries.toNat) :
    (WebsiteScraper.scrape cfg att).result = none ∧
    (WebsiteScraper.scrape cfg att).requests = j + 1 ∧
    (WebsiteScraper.scrape cfg att).sleeps.length = j := by
  unfold WebsiteScraper.scrape
  rw [List.range_eq_range',
    scrapeLoop_fatal_trace cfg att j hj hb cfg.max_retries.toNat 0 (Nat.zero_add _)
      (Nat.zero_le j) (by omega)]
  simp [List.length_range']

/-- Claim C9 witness: a fatal error on the very first attempt. -/
theorem C9_witness :
    (WebsiteScraper.scrape ScrapingConfig.default alwaysFatal).result = none ∧
    (WebsiteScraper.scrape ScrapingConfig.default alwaysFatal).requests = 0 + 1 ∧
    (WebsiteScraper.scrape ScrapingConfig.default alwaysFatal).sleeps.length = 0 :=
  C9_fatal_terminates_immediately ScrapingConfig.default alwaysFatal 0 rfl
    (fun i hi => absurd hi (Nat.not_lt_zero i)) (by decide)

/-- Claim C10: with `max_retries = 0` (or negative) the loop body never runs:
`scrape` returns `None` with no HTTP request and no sleep. -/
theorem C10_zero_retries_no_request (cfg : ScrapingConfig) (att : Nat → FetchOutcome)
    (h : cfg.max_retries ≤ 0) :
    WebsiteScraper.scrape cfg att = ⟨none, [], 0⟩ :=
  scrape_nonpos cfg att h

/-- Claim C10 witness at a zero-retry configuration. -/
theorem C10_witness :
    WebsiteScraper.scrape zeroRetryConfig alwaysTransient = ⟨none, [], 0⟩ :=
  C10_zero_retries_no_request zeroRetryConfig alwaysTransient (by decide)

/-- Claim C5 counterexample: the claim's discard set says "image", but the
default configuration discards the tag "img" — the two sets differ. -/
theorem C5_counterexample :
    "image" ∈ specListedRemoveElements ∧
    "image" ∉ ScrapingConfig.default.remove_elements ∧
    "img" ∈ ScrapingConfig.default.remove_elements ∧
    ScrapingConfig.default.remove_elements.toFinset ≠ specListedRemoveElements.toFinset := by
  refine ⟨by decide, by decide, by decide, by decide⟩

/-- Claim C5 (amended): a `ScrapingConfig()` built with no explicit arguments
has timeout 30, max_retries 3, retry_delay 1.0, and discard set
{script, style, img, input, nav, header, footer, aside}. -/
theorem C5_default_config_values :
    ScrapingConfig.default.timeout = 30 ∧
    ScrapingConfig.default.max_retries = 3 ∧
    ScrapingConfig.default.retry_delay = 1 ∧
    ScrapingConfig.default.remove_elements.toFinset =
      ({"script", "style", "img", "input", "nav", "header", "footer", "aside"} :
        Finset String) := by
  refine ⟨rfl, rfl, rfl, by decide⟩

/-- Claim C6: with a body element present, the extracted body text equals the
spec pipeline (discard banned elements at any depth, join the visible text
runs with newlines, trim lines, drop empties, rejoin); on the specification's
example document this yields title "Test Site" and body "Test content". -/
theorem C6_body_text_pipeline (cfg : ScrapingConfig) (doc b : Html)
    (hb : findElem "body" doc = some b) :
    extractText cfg doc = specBodyText cfg.remove_elements b ∧
    (extractTitle exDoc = "Test Site" ∧
      extractText ScrapingConfig.default exDoc = "Test content") :=
  ⟨extractText_eq_specBodyText cfg doc b hb, by decide, by decide⟩

/-- Claim C6 witness at the specification's example document. -/
theorem C6_witness :
    (extractText ScrapingConfig.default exDoc =
      specBodyText ScrapingConfig.default.remove_elements exBody) ∧
    (extractTitle exDoc = "Test Site" ∧
      extractText ScrapingConfig.default exDoc = "Test content") :=
  C6_body_text_pipeline ScrapingConfig.default exDoc exBody (by decide)

/-- Claim C7 counterexample: in `emptyTitleDoc` a title element is present,
its trimmed text is the empty string, yet the extractor yields the sentinel
(the `.string` of an empty element is `None`, which is falsy). -/
theorem C7_counterexample :
    findElem "title" emptyTitleDoc = some (Html.elem "title" HtmlList.nil) ∧
    extractTitle emptyTitleDoc ≠ pyStrip (elemText (Html.elem "title" HtmlList.nil)) := by
  refine ⟨by decide, by decide⟩

/-- Claim C7 (amended): no title element gives the sentinel title, no body
element gives the sentinel body text; a present title element with a
non-empty `.string` yields that string trimmed, while a present title element
whose `.string` is `None` or empty also yields the sentinel title. -/
theorem C7_sentinel_fallbacks (cfg : ScrapingConfig) (doc : Html) :
    (findElem "title" doc = none → extractTitle doc = "No title found") ∧
    (findElem "body" doc = none → extractText cfg doc = "No content found") ∧
    (∀ t s, findElem "title" doc = some t → htmlString t = some s → s ≠ "" →
      extractTitle doc = pyStrip s) ∧
    (∀ t, findElem "title" doc = some t →
      (htmlString t = none ∨ htmlString t = some "") →
      extractTitle doc = "No title found") := by
  refine ⟨?_, ?_, ?_, ?_⟩
  · intro h
    simp [extractTitle, h]
    decide
  · intro h
    simp [extractText, h]
  · intro t s ht hs hne
    simp [extractTitle, ht, hs, hne]
  · intro t ht hcase
    rcases hcase with h | h <;> simp [extractTitle, ht, h]

/-- Claim C7 witness at concrete documents for each branch. -/
theorem C7_witness :
    extractTitle noTitleDoc = "No title found" ∧
    extractText ScrapingConfig.default noBodyDoc = "No content found" ∧
    extractTitle exDoc = pyStrip "Test Site" ∧
    extractTitle emptyTitleDoc = "No title found" :=
  ⟨(C7_sentinel_fallbacks ScrapingConfig.default noTitleDoc).1 (by decide),
   (C7_sentinel_fallbacks ScrapingConfig.default noBodyDoc).2.1 (by decide),
   (C7_sentinel_fallbacks ScrapingConfig.default exDoc).2.2.1
     (Html.elem "title" (HtmlList.ofList [Html.text "Test Site"])) "Test Site"
     (by decide) (by decide) (by decide),
   (C7_sentinel_fallbacks ScrapingConfig.default emptyTitleDoc).2.2.2
     (Html.elem "title" HtmlList.nil) (by decide) (Or.inl (by decide))⟩
